import Mathlib

/-!
Shallow embedding of the subscription-verification strategies of
`app_services/users`: the direct strategy `VerifySubscriptionFranchise1`
and the resolving strategy `VerifySubscriptionFranchise2`, together with
their external collaborators (the core API client and the franchise API
client), modelled as explicit function arguments.

Python dictionaries are modelled as association lists over a small value
type; a Python `d[key]` lookup on a missing key raises `KeyError`, which
the embedding makes explicit by returning `Except String _` from the
resolving strategy.  Client calls are instrumented: each `verify` returns
its result together with the exact list of calls it made to each client.
-/

set_option autoImplicit false
set_option linter.unusedVariables false

/-- Python scalar value appearing in the dictionaries exchanged with the
subscription clients: the literal `None`, a string, or a UUID
(abstracted as a natural number). -/
inductive PyVal where
  | none : PyVal
  | str : String → PyVal
  | uuid : Nat → PyVal
  deriving DecidableEq

/-- A Python `dict` with string keys, modelled as an association list. -/
abbrev Dict := List (String × PyVal)

/-- Lookup of `d[key]`: the value at the first matching key, or absent. -/
def dictGet : Dict → String → Option PyVal
  | [], _ => Option.none
  | (k, v) :: rest, key => if k = key then Option.some v else dictGet rest key

/-- Record of the collaborator calls one `verify` invocation performed:
the arguments of each `franchise_api_client.get_user_subscription_info`
call and of each `core_api_client.verify_subscription` call, in order. -/
structure Trace where
  franchiseCalls : List (Option String)
  coreCalls : List (PyVal × Dict)
  deriving DecidableEq

/-- Embedding of `VerifySubscriptionFranchise1.verify` (the direct
strategy): it forwards `(subscription_id, metadata)` to
`core_api_client.verify_subscription` and returns the result, recording
the single core-client call.  `core_api_client` is the injected
collaborator, modelled as a function. -/
def VerifySubscriptionFranchise1.verify
    (core_api_client : PyVal → Dict → Dict)
    (metadata : Dict) (subscription_id : PyVal)
    (subscription_external_id : Option String) :
    Dict × List (PyVal × Dict) :=
  (core_api_client subscription_id metadata, [(subscription_id, metadata)])

/-- Embedding of `VerifySubscriptionFranchise2.verify` (the resolving
strategy).  It calls `franchise_api_client.get_user_subscription_info`
on `subscription_external_id`; on `None` it returns the not-found error
dict; otherwise it reads `info["status"]` (a `KeyError` if absent),
compares it with `"active"`, reads `info["id"]` (a `KeyError` if
absent), returns the missing-id error dict if that value is `None`, and
otherwise forwards the resolved id and metadata to
`core_api_client.verify_subscription`.  The second component records the
collaborator calls made. -/
def VerifySubscriptionFranchise2.verify
    (franchise_api_client : Option String → Option Dict)
    (core_api_client : PyVal → Dict → Dict)
    (metadata : Dict) (subscription_id : PyVal)
    (subscription_external_id : Option String) :
    Except String Dict × Trace :=
  match franchise_api_client subscription_external_id with
  | Option.none =>
      (Except.ok [("status", PyVal.str "error"),
                  ("message", PyVal.str "User subscription not found")],
       ⟨[subscription_external_id], []⟩)
  | Option.some user_subscription_info =>
      match dictGet user_subscription_info "status" with
      | Option.none => (Except.error "KeyError: status", ⟨[subscription_external_id], []⟩)
      | Option.some st =>
          if st ≠ PyVal.str "active" then
            (Except.ok [("status", PyVal.str "error"),
                        ("message", PyVal.str "User subscription is not active")],
             ⟨[subscription_external_id], []⟩)
          else
            match dictGet user_subscription_info "id" with
            | Option.none => (Except.error "KeyError: id", ⟨[subscription_external_id], []⟩)
            | Option.some sid =>
                if sid = PyVal.none then
                  (Except.ok [("status", PyVal.str "error"),
                              ("message", PyVal.str "Subscription id not found")],
                   ⟨[subscription_external_id], []⟩)
                else
                  (Except.ok (core_api_client sid metadata),
                   ⟨[subscription_external_id], [(sid, metadata)]⟩)

/-- Stateful variant of the direct strategy, for reasoning about
repeated calls: the core client is modelled with an explicit client
state of type `s`, threaded through the single call exactly as the
source threads `self.core_api_client`. -/
def VerifySubscriptionFranchise1.verifySt {s : Type}
    (core_api_client : s → PyVal → Dict → Dict × s)
    (st0 : s) (metadata : Dict) (subscription_id : PyVal)
    (subscription_external_id : Option String) : Dict × s :=
  core_api_client st0 subscription_id metadata

/-- Stateful variant of the resolving strategy, for reasoning about
repeated calls: both clients carry an explicit state of type `s`,
threaded through the calls in source order (franchise client first,
then — only on the success path — the core client). -/
def VerifySubscriptionFranchise2.verifySt {s : Type}
    (franchise_api_client : s → Option String → Option Dict × s)
    (core_api_client : s → PyVal → Dict → Dict × s)
    (st0 : s) (metadata : Dict) (subscription_id : PyVal)
    (subscription_external_id : Option String) : Except String Dict × s :=
  match franchise_api_client st0 subscription_external_id with
  | (Option.none, st1) =>
      (Except.ok [("status", PyVal.str "error"),
                  ("message", PyVal.str "User subscription not found")], st1)
  | (Option.some user_subscription_info, st1) =>
      match dictGet user_subscription_info "status" with
      | Option.none => (Except.error "KeyError: status", st1)
      | Option.some v =>
          if v ≠ PyVal.str "active" then
            (Except.ok [("status", PyVal.str "error"),
                        ("message", PyVal.str "User subscription is not active")], st1)
          else
            match dictGet user_subscription_info "id" with
            | Option.none => (Except.error "KeyError: id", st1)
            | Option.some sid =>
                if sid = PyVal.none then
                  (Except.ok [("status", PyVal.str "error"),
                              ("message", PyVal.str "Subscription id not found")], st1)
                else
                  (Except.ok (core_api_client st1 sid metadata).1,
                   (core_api_client st1 sid metadata).2)

/-- C3: for the resolving strategy, if the franchise client returns
absent for the given external id, `verify` returns exactly
`{"status": "error", "message": "User subscription not found"}`, the
franchise client was called once with that external id, and the core
client is never called. -/
theorem C3_not_found
    (franchise_api_client : Option String → Option Dict)
    (core_api_client : PyVal → Dict → Dict)
    (metadata : Dict) (subscription_id : PyVal) (subscription_external_id : Option String)
    (hfr : franchise_api_client subscription_external_id = Option.none) :
    VerifySubscriptionFranchise2.verify franchise_api_client core_api_client
        metadata subscription_id subscription_external_id
      = (Except.ok [("status", PyVal.str "error"),
                    ("message", PyVal.str "User subscription not found")],
         ⟨[subscription_external_id], []⟩) := by
  unfold VerifySubscriptionFranchise2.verify
  rw [hfr]

/-- Witness for C3 at a concrete input: a franchise client that finds no
subscription for the external id `"ext-1"`. -/
theorem C3_not_found_witness :
    VerifySubscriptionFranchise2.verify (fun _ => Option.none) (fun _ _ => [])
        [] PyVal.none (Option.some "ext-1")
      = (Except.ok [("status", PyVal.str "error"),
                    ("message", PyVal.str "User subscription not found")],
         ⟨[Option.some "ext-1"], []⟩) :=
  C3_not_found (fun _ => Option.none) (fun _ _ => []) [] PyVal.none
    (Option.some "ext-1") rfl

/-- C4: for the resolving strategy, if the franchise record carries a
`status` value different from the string `"active"`, `verify` returns
exactly `{"status": "error", "message": "User subscription is not
active"}`, the franchise client was called once, and the core client is
never called. -/
theorem C4_not_active
    (franchise_api_client : Option String → Option Dict)
    (core_api_client : PyVal → Dict → Dict)
    (metadata : Dict) (subscription_id : PyVal) (subscription_external_id : Option String)
    (info : Dict) (v : PyVal)
    (hfr : franchise_api_client subscription_external_id = Option.some info)
    (hst : dictGet info "status" = Option.some v)
    (hv : v ≠ PyVal.str "active") :
    VerifySubscriptionFranchise2.verify franchise_api_client core_api_client
        metadata subscription_id subscription_external_id
      = (Except.ok [("status", PyVal.str "error"),
                    ("message", PyVal.str "User subscription is not active")],
         ⟨[subscription_external_id], []⟩) := by
  unfold VerifySubscriptionFranchise2.verify
  simp only [hfr, hst]
  rw [if_pos hv]

/-- Witness for C4 at a concrete input: a franchise record with status
`"cancelled"`. -/
theorem C4_not_active_witness :
    VerifySubscriptionFranchise2.verify
        (fun _ => Option.some [("status", PyVal.str "cancelled"), ("id", PyVal.uuid 7)])
        (fun _ _ => []) [] PyVal.none (Option.some "ext-2")
      = (Except.ok [("status", PyVal.str "error"),
                    ("message", PyVal.str "User subscription is not active")],
         ⟨[Option.some "ext-2"], []⟩) :=
  C4_not_active
    (fun _ => Option.some [("status", PyVal.str "cancelled"), ("id", PyVal.uuid 7)])
    (fun _ _ => []) [] PyVal.none (Option.some "ext-2")
    [("status", PyVal.str "cancelled"), ("id", PyVal.uuid 7)]
    (PyVal.str "cancelled") rfl rfl (by decide)

/-- C1: for the resolving strategy, when the franchise record is active
and carries a non-null id `x`, `verify` calls the core client exactly
once with `(x, metadata)` and returns its result unmodified, having
called the franchise client exactly once; moreover (second conjunct)
for every collaborator behaviour the core client is reached only on
this success path: either no core call is made, or the franchise record
was active with a non-null id `y` and the single core call was
`(y, metadata)`. -/
theorem C1_success_path
    (franchise_api_client : Option String → Option Dict)
    (core_api_client : PyVal → Dict → Dict)
    (metadata : Dict) (subscription_id : PyVal) (subscription_external_id : Option String)
    (info : Dict) (x : PyVal)
    (hfr : franchise_api_client subscription_external_id = Option.some info)
    (hst : dictGet info "status" = Option.some (PyVal.str "active"))
    (hid : dictGet info "id" = Option.some x)
    (hx : x ≠ PyVal.none) :
    VerifySubscriptionFranchise2.verify franchise_api_client core_api_client
        metadata subscription_id subscription_external_id
      = (Except.ok (core_api_client x metadata),
         ⟨[subscription_external_id], [(x, metadata)]⟩)
    ∧ ∀ (fr : Option String → Option Dict) (eid : Option String),
        (VerifySubscriptionFranchise2.verify fr core_api_client
            metadata subscription_id eid).2.coreCalls = []
        ∨ ∃ (info2 : Dict) (y : PyVal),
            fr eid = Option.some info2
            ∧ dictGet info2 "status" = Option.some (PyVal.str "active")
            ∧ dictGet info2 "id" = Option.some y
            ∧ y ≠ PyVal.none
            ∧ (VerifySubscriptionFranchise2.verify fr core_api_client
                metadata subscription_id eid).2.coreCalls = [(y, metadata)] := by
  constructor
  · unfold VerifySubscriptionFranchise2.verify
    simp only [hfr, hst]
    rw [if_neg (by decide)]
    simp only [hid]
    rw [if_neg hx]
  · intro fr eid
    unfold VerifySubscriptionFranchise2.verify
    split
    · exact Or.inl rfl
    next info2 heq =>
      split
      · exact Or.inl rfl
      next st heq2 =>
        split
        · exact Or.inl rfl
        next hact =>
          split
          · exact Or.inl rfl
          next y heq3 =>
            split
            · exact Or.inl rfl
            next hy =>
              exact Or.inr ⟨info2, y, heq, by rw [heq2, not_not.mp hact], heq3, hy, rfl⟩

/-- Witness for C1 at a concrete input: an active record resolving to
UUID 7, with a core client answering `{"status": "ok"}`. -/
theorem C1_success_path_witness :
    VerifySubscriptionFranchise2.verify
        (fun _ => Option.some [("status", PyVal.str "active"), ("id", PyVal.uuid 7)])
        (fun _ _ => [("status", PyVal.str "ok")])
        [("plan", PyVal.str "gold")] PyVal.none (Option.some "ext-42")
      = (Except.ok [("status", PyVal.str "ok")],
         ⟨[Option.some "ext-42"], [(PyVal.uuid 7, [("plan", PyVal.str "gold")])]⟩) :=
  (C1_success_path
    (fun _ => Option.some [("status", PyVal.str "active"), ("id", PyVal.uuid 7)])
    (fun _ _ => [("status", PyVal.str "ok")])
    [("plan", PyVal.str "gold")] PyVal.none (Option.some "ext-42")
    [("status", PyVal.str "active"), ("id", PyVal.uuid 7)]
    (PyVal.uuid 7) rfl rfl rfl (by decide)).1

/-- Counterexample to C2 as stated: for a franchise record that is
active but has no `"id"` key at all, `verify` does not return the
structured `Subscription id not found` error dict; the unguarded
`info["id"]` lookup raises `KeyError` instead.  So an absent id and a
present-but-null id are not treated identically. -/
theorem C2_absent_id_counterexample :
    (VerifySubscriptionFranchise2.verify
        (fun _ => Option.some [("status", PyVal.str "active")])
        (fun _ _ => []) [] PyVal.none (Option.some "ext-3")).1
      = Except.error "KeyError: id"
    ∧ (VerifySubscriptionFranchise2.verify
        (fun _ => Option.some [("status", PyVal.str "active")])
        (fun _ _ => []) [] PyVal.none (Option.some "ext-3")).1
      ≠ Except.ok [("status", PyVal.str "error"),
                   ("message", PyVal.str "Subscription id not found")] :=
  ⟨rfl, fun h => Except.noConfusion h⟩

/-- C2 amended: for an active franchise record, if the `"id"` key is
present with value `None`, `verify` returns exactly
`{"status": "error", "message": "Subscription id not found"}` and never
calls the core client; if the `"id"` key is absent entirely, the
lookup raises `KeyError` (again without calling the core client). -/
theorem C2_id_null_or_absent
    (franchise_api_client : Option String → Option Dict)
    (core_api_client : PyVal → Dict → Dict)
    (metadata : Dict) (subscription_id : PyVal) (subscription_external_id : Option String)
    (info : Dict)
    (hfr : franchise_api_client subscription_external_id = Option.some info)
    (hst : dictGet info "status" = Option.some (PyVal.str "active")) :
    (dictGet info "id" = Option.some PyVal.none →
      VerifySubscriptionFranchise2.verify franchise_api_client core_api_client
          metadata subscription_id subscription_external_id
        = (Except.ok [("status", PyVal.str "error"),
                      ("message", PyVal.str "Subscription id not found")],
           ⟨[subscription_external_id], []⟩))
    ∧ (dictGet info "id" = Option.none →
      VerifySubscriptionFranchise2.verify franchise_api_client core_api_client
          metadata subscription_id subscription_external_id
        = (Except.error "KeyError: id", ⟨[subscription_external_id], []⟩)) := by
  constructor
  · intro hid
    unfold VerifySubscriptionFranchise2.verify
    simp only [hfr, hst]
    rw [if_neg (by decide)]
    simp only [hid]
    rw [if_pos trivial]
  · intro hid
    unfold VerifySubscriptionFranchise2.verify
    simp only [hfr, hst]
    rw [if_neg (by decide)]
    simp only [hid]

/-- Witness for the amended C2 at concrete inputs: one active record
with a null id and one active record with no id key. -/
theorem C2_id_null_or_absent_witness :
    VerifySubscriptionFranchise2.verify
        (fun _ => Option.some [("status", PyVal.str "active"), ("id", PyVal.none)])
        (fun _ _ => []) [] PyVal.none (Option.some "ext-4")
      = (Except.ok [("status", PyVal.str "error"),
                    ("message", PyVal.str "Subscription id not found")],
         ⟨[Option.some "ext-4"], []⟩)
    ∧ VerifySubscriptionFranchise2.verify
        (fun _ => Option.some [("status", PyVal.str "active")])
        (fun _ _ => []) [] PyVal.none (Option.some "ext-5")
      = (Except.error "KeyError: id", ⟨[Option.some "ext-5"], []⟩) :=
  ⟨(C2_id_null_or_absent
      (fun _ => Option.some [("status", PyVal.str "active"), ("id", PyVal.none)])
      (fun _ _ => []) [] PyVal.none (Option.some "ext-4")
      [("status", PyVal.str "active"), ("id", PyVal.none)] rfl rfl).1 rfl,
   (C2_id_null_or_absent
      (fun _ => Option.some [("status", PyVal.str "active")])
      (fun _ _ => []) [] PyVal.none (Option.some "ext-5")
      [("status", PyVal.str "active")] rfl rfl).2 rfl⟩

/-- C5: the direct strategy forwards `(subscription_id, metadata)` to
the core client, returns its result unmodified, and its call record is
exactly one core-client call with those arguments (and no franchise
call, since the strategy holds no franchise client at all). -/
theorem C5_direct_delegation
    (core_api_client : PyVal → Dict → Dict)
    (metadata : Dict) (subscription_id : PyVal)
    (subscription_external_id : Option String) :
    VerifySubscriptionFranchise1.verify core_api_client
        metadata subscription_id subscription_external_id
      = (core_api_client subscription_id metadata,
         [(subscription_id, metadata)]) :=
  rfl

/-- C6: the checks of the resolving strategy short-circuit in the fixed
order existence, active status, id presence: when the status check
fails, the returned error is the not-active error even when the id
check would also fail (id null or id key absent) — the id lookup is
never evaluated, so in particular no `KeyError` arises from a missing
id key. -/
theorem C6_check_order
    (franchise_api_client : Option String → Option Dict)
    (core_api_client : PyVal → Dict → Dict)
    (metadata : Dict) (subscription_id : PyVal) (subscription_external_id : Option String)
    (info : Dict) (v : PyVal)
    (hfr : franchise_api_client subscription_external_id = Option.some info)
    (hst : dictGet info "status" = Option.some v)
    (hv : v ≠ PyVal.str "active")
    (hid : dictGet info "id" = Option.some PyVal.none ∨ dictGet info "id" = Option.none) :
    VerifySubscriptionFranchise2.verify franchise_api_client core_api_client
        metadata subscription_id subscription_external_id
      = (Except.ok [("status", PyVal.str "error"),
                    ("message", PyVal.str "User subscription is not active")],
         ⟨[subscription_external_id], []⟩) := by
  unfold VerifySubscriptionFranchise2.verify
  simp only [hfr, hst]
  rw [if_pos hv]

/-- Witness for C6 at a concrete input: a record that is both inactive
and id-less; the status error wins. -/
theorem C6_check_order_witness :
    VerifySubscriptionFranchise2.verify
        (fun _ => Option.some [("status", PyVal.str "expired"), ("id", PyVal.none)])
        (fun _ _ => []) [] PyVal.none (Option.some "ext-6")
      = (Except.ok [("status", PyVal.str "error"),
                    ("message", PyVal.str "User subscription is not active")],
         ⟨[Option.some "ext-6"], []⟩) :=
  C6_check_order
    (fun _ => Option.some [("status", PyVal.str "expired"), ("id", PyVal.none)])
    (fun _ _ => []) [] PyVal.none (Option.some "ext-6")
    [("status", PyVal.str "expired"), ("id", PyVal.none)]
    (PyVal.str "expired") rfl rfl (by decide) (Or.inl rfl)

/-- C7: for the direct strategy, `subscription_external_id` has no
effect on behaviour: two calls agreeing on the core client, the
metadata and the subscription id but differing in the external id
produce the same result and the same single core-client call. -/
theorem C7_external_id_no_effect
    (core_api_client : PyVal → Dict → Dict)
    (metadata : Dict) (subscription_id : PyVal)
    (eid1 eid2 : Option String) :
    VerifySubscriptionFranchise1.verify core_api_client
        metadata subscription_id eid1
      = VerifySubscriptionFranchise1.verify core_api_client
          metadata subscription_id eid2 :=
  rfl

/-- C9: the resolving strategy reads the franchise record with
unguarded lookups: if the record lacks the `"status"` key the status
lookup raises `KeyError`, and if the record is active but lacks the
`"id"` key the id lookup raises `KeyError`; in both cases no structured
error dict is produced and the core client is never called. -/
theorem C9_keyerror_on_missing_keys
    (franchise_api_client : Option String → Option Dict)
    (core_api_client : PyVal → Dict → Dict)
    (metadata : Dict) (subscription_id : PyVal) (subscription_external_id : Option String)
    (info : Dict)
    (hfr : franchise_api_client subscription_external_id = Option.some info) :
    (dictGet info "status" = Option.none →
      VerifySubscriptionFranchise2.verify franchise_api_client core_api_client
          metadata subscription_id subscription_external_id
        = (Except.error "KeyError: status", ⟨[subscription_external_id], []⟩))
    ∧ (dictGet info "status" = Option.some (PyVal.str "active") →
       dictGet info "id" = Option.none →
      VerifySubscriptionFranchise2.verify franchise_api_client core_api_client
          metadata subscription_id subscription_external_id
        = (Except.error "KeyError: id", ⟨[subscription_external_id], []⟩)) := by
  constructor
  · intro hst
    unfold VerifySubscriptionFranchise2.verify
    simp only [hfr, hst]
  · intro hst hid
    unfold VerifySubscriptionFranchise2.verify
    simp only [hfr, hst]
    rw [if_neg (by decide)]
    simp only [hid]

/-- Witness for C9 at concrete inputs: a record with no `status` key,
and an active record with no `id` key. -/
theorem C9_keyerror_on_missing_keys_witness :
    VerifySubscriptionFranchise2.verify
        (fun _ => Option.some [("plan", PyVal.str "gold")])
        (fun _ _ => []) [] PyVal.none (Option.some "ext-7")
      = (Except.error "KeyError: status", ⟨[Option.some "ext-7"], []⟩)
    ∧ VerifySubscriptionFranchise2.verify
        (fun _ => Option.some [("status", PyVal.str "active")])
        (fun _ _ => []) [] PyVal.none (Option.some "ext-8")
      = (Except.error "KeyError: id", ⟨[Option.some "ext-8"], []⟩) :=
  ⟨(C9_keyerror_on_missing_keys
      (fun _ => Option.some [("plan", PyVal.str "gold")])
      (fun _ _ => []) [] PyVal.none (Option.some "ext-7")
      [("plan", PyVal.str "gold")] rfl).1 rfl,
   (C9_keyerror_on_missing_keys
      (fun _ => Option.some [("status", PyVal.str "active")])
      (fun _ _ => []) [] PyVal.none (Option.some "ext-8")
      [("status", PyVal.str "active")] rfl).2 rfl rfl⟩

/-- C10: the resolving strategy applies no local guard to
`subscription_external_id`: for every input (including a `None`
external id) the franchise client is called exactly once with that
value unchanged; the `subscription_id` argument is never read (any two
values give identical behaviour); and the outcome depends on the
external id only through the franchise client's response. -/
theorem C10_no_external_id_guard
    (franchise_api_client : Option String → Option Dict)
    (core_api_client : PyVal → Dict → Dict)
    (metadata : Dict) (sid1 sid2 : PyVal) (eid : Option String) :
    (VerifySubscriptionFranchise2.verify franchise_api_client core_api_client
        metadata sid1 eid).2.franchiseCalls = [eid]
    ∧ VerifySubscriptionFranchise2.verify franchise_api_client core_api_client
        metadata sid1 eid
      = VerifySubscriptionFranchise2.verify franchise_api_client core_api_client
          metadata sid2 eid
    ∧ ∀ (eid2 : Option String),
        franchise_api_client eid = franchise_api_client eid2 →
        (VerifySubscriptionFranchise2.verify franchise_api_client core_api_client
            metadata sid1 eid).1
          = (VerifySubscriptionFranchise2.verify franchise_api_client core_api_client
              metadata sid2 eid2).1 := by
  refine ⟨?_, rfl, ?_⟩
  · unfold VerifySubscriptionFranchise2.verify
    split
    · rfl
    · split
      · rfl
      · split
        · rfl
        · split
          · rfl
          · split
            · rfl
            · rfl
  · intro eid2 h
    unfold VerifySubscriptionFranchise2.verify
    rw [h]
    cases franchise_api_client eid2 with
    | none => rfl
    | some info =>
        dsimp only
        cases dictGet info "status" with
        | none => rfl
        | some st =>
            dsimp only
            by_cases hact : st ≠ PyVal.str "active"
            · rw [if_pos hact, if_pos hact]
            · rw [if_neg hact, if_neg hact]
              cases dictGet info "id" with
              | none => rfl
              | some y =>
                  dsimp only
                  by_cases hy : y = PyVal.none
                  · rw [if_pos hy, if_pos hy]
                  · rw [if_neg hy, if_neg hy]

/-- Witness for C10 at a concrete input: the external id is `None` and
is still forwarded to the franchise client unchanged; two distinct
subscription-id arguments and two external ids with equal responses
give the same result. -/
theorem C10_no_external_id_guard_witness :
    (VerifySubscriptionFranchise2.verify (fun _ => Option.none) (fun _ _ => [])
        [] PyVal.none Option.none).2.franchiseCalls = [Option.none]
    ∧ (VerifySubscriptionFranchise2.verify (fun _ => Option.none) (fun _ _ => [])
        [] PyVal.none Option.none).1
      = (VerifySubscriptionFranchise2.verify (fun _ => Option.none) (fun _ _ => [])
          [] (PyVal.uuid 1) (Option.some "other")).1 :=
  ⟨(C10_no_external_id_guard (fun _ => Option.none) (fun _ _ => [])
      [] PyVal.none (PyVal.uuid 1) Option.none).1,
   (C10_no_external_id_guard (fun _ => Option.none) (fun _ _ => [])
      [] PyVal.none (PyVal.uuid 1) Option.none).2.2 (Option.some "other") rfl⟩

/-- Helper: against stub clients (state-independent responses, state
left unchanged) the stateful direct strategy computes the pure result
and preserves the client state. -/
theorem verifySt1_stub {s : Type}
    (core_api_client : s → PyVal → Dict → Dict × s)
    (C : PyVal → Dict → Dict)
    (hC : ∀ st i m, core_api_client st i m = (C i m, st))
    (st0 : s) (metadata : Dict) (subscription_id : PyVal) (eid : Option String) :
    VerifySubscriptionFranchise1.verifySt core_api_client st0
        metadata subscription_id eid
      = ((VerifySubscriptionFranchise1.verify C metadata subscription_id eid).1, st0) := by
  unfold VerifySubscriptionFranchise1.verifySt VerifySubscriptionFranchise1.verify
  rw [hC]

/-- Helper: against stub clients the stateful resolving strategy
computes the pure result and preserves the client state. -/
theorem verifySt2_stub {s : Type}
    (franchise_api_client : s → Option String → Option Dict × s)
    (core_api_client : s → PyVal → Dict → Dict × s)
    (F : Option String → Option Dict) (C : PyVal → Dict → Dict)
    (hF : ∀ st x, franchise_api_client st x = (F x, st))
    (hC : ∀ st i m, core_api_client st i m = (C i m, st))
    (st0 : s) (metadata : Dict) (subscription_id : PyVal) (eid : Option String) :
    VerifySubscriptionFranchise2.verifySt franchise_api_client core_api_client st0
        metadata subscription_id eid
      = ((VerifySubscriptionFranchise2.verify F C metadata subscription_id eid).1, st0) := by
  unfold VerifySubscriptionFranchise2.verifySt VerifySubscriptionFranchise2.verify
  rw [hF]
  cases F eid with
  | none => rfl
  | some info =>
      dsimp only
      cases dictGet info "status" with
      | none => rfl
      | some v =>
          dsimp only
          by_cases hact : v ≠ PyVal.str "active"
          · rw [if_pos hact, if_pos hact]
          · rw [if_neg hact, if_neg hact]
            cases dictGet info "id" with
            | none => rfl
            | some y =>
                dsimp only
                by_cases hy : y = PyVal.none
                · rw [if_pos hy, if_pos hy]
                · rw [if_neg hy, if_neg hy]
                  rw [hC]

/-- C8: both strategies are deterministic given deterministic
collaborators: against stub clients (same response on every call, state
unchanged), a second call with identical inputs — run from the client
state left by the first call — yields the identical output, and each
call leaves the client state exactly as it found it. -/
theorem C8_deterministic_repeat {s : Type}
    (franchise_api_client : s → Option String → Option Dict × s)
    (core_api_client : s → PyVal → Dict → Dict × s)
    (F : Option String → Option Dict) (C : PyVal → Dict → Dict)
    (hF : ∀ st x, franchise_api_client st x = (F x, st))
    (hC : ∀ st i m, core_api_client st i m = (C i m, st))
    (st0 : s) (metadata : Dict) (subscription_id : PyVal) (eid : Option String) :
    (VerifySubscriptionFranchise1.verifySt core_api_client st0
        metadata subscription_id eid).1
      = (VerifySubscriptionFranchise1.verifySt core_api_client
          (VerifySubscriptionFranchise1.verifySt core_api_client st0
            metadata subscription_id eid).2
          metadata subscription_id eid).1
    ∧ (VerifySubscriptionFranchise1.verifySt core_api_client st0
        metadata subscription_id eid).2 = st0
    ∧ (VerifySubscriptionFranchise2.verifySt franchise_api_client core_api_client st0
        metadata subscription_id eid).1
      = (VerifySubscriptionFranchise2.verifySt franchise_api_client core_api_client
          (VerifySubscriptionFranchise2.verifySt franchise_api_client core_api_client st0
            metadata subscription_id eid).2
          metadata subscription_id eid).1
    ∧ (VerifySubscriptionFranchise2.verifySt franchise_api_client core_api_client st0
        metadata subscription_id eid).2 = st0 := by
  have e1 : ∀ st : s, VerifySubscriptionFranchise1.verifySt core_api_client st
      metadata subscription_id eid
    = ((VerifySubscriptionFranchise1.verify C metadata subscription_id eid).1, st) :=
    fun st => verifySt1_stub core_api_client C hC st metadata subscription_id eid
  have e2 : ∀ st : s, VerifySubscriptionFranchise2.verifySt franchise_api_client
      core_api_client st metadata subscription_id eid
    = ((VerifySubscriptionFranchise2.verify F C metadata subscription_id eid).1, st) :=
    fun st => verifySt2_stub franchise_api_client core_api_client F C hF hC st
      metadata subscription_id eid
  refine ⟨?_, ?_, ?_, ?_⟩ <;> simp only [e1, e2]

/-- Witness for C8 at a concrete input: stub clients over a `Nat`
client state, an active record resolving to UUID 7, two sequential
calls with identical inputs. -/
theorem C8_deterministic_repeat_witness :
    (VerifySubscriptionFranchise2.verifySt
        (fun (st : Nat) _ =>
          (Option.some [("status", PyVal.str "active"), ("id", PyVal.uuid 7)], st))
        (fun (st : Nat) _ _ => ([("status", PyVal.str "ok")], st))
        0 [] PyVal.none (Option.some "ext-9")).1
      = (VerifySubscriptionFranchise2.verifySt
          (fun (st : Nat) _ =>
            (Option.some [("status", PyVal.str "active"), ("id", PyVal.uuid 7)], st))
          (fun (st : Nat) _ _ => ([("status", PyVal.str "ok")], st))
          (VerifySubscriptionFranchise2.verifySt
            (fun (st : Nat) _ =>
              (Option.some [("status", PyVal.str "active"), ("id", PyVal.uuid 7)], st))
            (fun (st : Nat) _ _ => ([("status", PyVal.str "ok")], st))
            0 [] PyVal.none (Option.some "ext-9")).2
          [] PyVal.none (Option.some "ext-9")).1 :=
  (C8_deterministic_repeat
    (fun (st : Nat) _ =>
      (Option.some [("status", PyVal.str "active"), ("id", PyVal.uuid 7)], st))
    (fun (st : Nat) _ _ => ([("status", PyVal.str "ok")], st))
    (fun _ => Option.some [("status", PyVal.str "active"), ("id", PyVal.uuid 7)])
    (fun _ _ => [("status", PyVal.str "ok")])
    (fun _ _ => rfl) (fun _ _ _ => rfl)
    0 [] PyVal.none (Option.some "ext-9")).2.2.1
